import Mathlib

/-!
Verification of the group-assignment core of the Class-Assignment repository
(`src/main.py`).  The heart of the program is `assign_groups` (lines 128-187):
it selects the unassigned rows of the student table, truncates them to the
200-student capacity (warning about the overflow), sizes the 25 cells with a
greedy recentering loop capped at 8 per cell, shuffles the flat cell sequence,
and writes the cells back onto the unassigned rows by index.  The surrounding
mutating operations are student registration (lines 433-441) and the
administrative clear (lines 778-781).

Records are embedded as a structure over `Option String`: `none` models a
pandas NaN, `some ""` models the empty string the program uses for "unset".
The call to `random.shuffle` is modelled by an explicit parameter
`shuf : List Cell → List Cell`; theorems that depend on it only assume the
library contract, namely that the result is a permutation of the input.
The `st.warning` emitted on overflow (lines 153-154) is modelled as an
`Option Nat` result carrying the overflow amount.
-/

namespace ClassAssignment

/-- One row of the student table: columns `name`, `index_number`,
`primary_group`, `subgroup`, `timestamp` (see `load_data`, line 115).
`none` models NaN; `some ""` models the empty string. -/
structure Student where
  name : String
  index_number : String
  primary_group : Option String
  subgroup : Option String
  timestamp : String
deriving DecidableEq

/-- A cell of the topology: a (primary group, subgroup) pair. -/
abbrev Cell := String × String

/-- Line 137: `primary_groups = ['A', 'B', 'C', 'D', 'E']`. -/
def primary_groups : List String := ["A", "B", "C", "D", "E"]

/-- Line 138: `subgroups = ['1', '2', '3', '4', '5']`. -/
def subgroups : List String := ["1", "2", "3", "4", "5"]

/-- Line 139: `all_groups = [(p, s) for p in primary_groups for s in subgroups]`. -/
def all_groups : List Cell :=
  primary_groups.flatMap (fun p => subgroups.map (fun s => (p, s)))

/-- Line 149: `STUDENTS_PER_SUBGROUP = 8`. -/
def STUDENTS_PER_SUBGROUP : Nat := 8

/-- Line 150: `MAX_STUDENTS = len(all_groups) * STUDENTS_PER_SUBGROUP` (= 200). -/
def MAX_STUDENTS : Nat := all_groups.length * STUDENTS_PER_SUBGROUP

/-- The row-selection test of line 142:
`df['primary_group'].isna() | (df['primary_group'] == '')`. -/
def isUnassigned (r : Student) : Bool :=
  r.primary_group.isNone || r.primary_group == some ""

/-- Whether row `i` of the table exists and passes the line-142 test. -/
def unassignedAt (df : List Student) (i : Nat) : Bool :=
  match df.get? i with
  | some r => isUnassigned r
  | none => false

/-- The index labels of the unassigned rows, in table order
(line 142: `unassigned = df[...]`, whose `.index` is used at line 183). -/
def unassignedIdx (df : List Student) : List Nat :=
  (List.range df.length).filter (unassignedAt df)

/-- Lines 163-177, the sizing loop: iterating over `all_groups` with absolute
index `i`, accumulator `students_assigned`, target `num_unassigned`; each step
computes `remaining_students // remaining_groups` plus one extra when
`i < remaining_students % remaining_groups`, capped at 8, and appends that many
copies of the current cell to `assignments`. -/
def sizeLoop : List Cell → Nat → Nat → Nat → List Cell
  | [], _, _, _ => []
  | g :: rest, i, students_assigned, num_unassigned =>
    if num_unassigned ≤ students_assigned then []
    else
      let remaining_students := num_unassigned - students_assigned
      let remaining_groups := all_groups.length - i
      let base_per_group := remaining_students / remaining_groups
      let extra := if i < remaining_students % remaining_groups then 1 else 0
      let students_for_group := min (base_per_group + extra) STUDENTS_PER_SUBGROUP
      List.replicate students_for_group g ++
        sizeLoop rest (i + 1) (students_assigned + students_for_group) num_unassigned

/-- The flat `assignments` list built by the loop of lines 163-177, before the
shuffle of line 180. -/
def buildAssignments (num_unassigned : Nat) : List Cell :=
  sizeLoop all_groups 0 0 num_unassigned

/-- Lines 184-185: write a cell's two components into a row. -/
def setGroups (r : Student) (c : Cell) : Student :=
  { r with primary_group := some c.1, subgroup := some c.2 }

/-- Replace the element at position `n` by its image under `f`
(the effect of a `df.at[idx, ...] = ...` write on our positional model). -/
def modifyAt (f : α → α) : Nat → List α → List α
  | _, [] => []
  | 0, a :: l => f a :: l
  | n + 1, a :: l => a :: modifyAt f n l

/-- Lines 183-185: `for idx, (primary, sub) in zip(unassigned.index, assignments)`,
writing both group fields at each listed row. -/
def applyWrites (df : List Student) (ps : List (Nat × Cell)) : List Student :=
  ps.foldl (fun acc p => modifyAt (fun r => setGroups r p.2) p.1 acc) df

/-- `assign_groups` (lines 128-187).  Returns the updated table together with
the overflow warning of lines 153-154 (`some (n - 200)` exactly when the
unassigned count `n` exceeds `MAX_STUDENTS`, else `none`).  `shuf` stands for
the `random.shuffle` call of line 180. -/
def assignGroups (shuf : List Cell → List Cell) (df : List Student) :
    List Student × Option Nat :=
  let uidx := unassignedIdx df
  let num_unassigned := uidx.length
  if num_unassigned = 0 then (df, none)
  else
    let warn := if MAX_STUDENTS < num_unassigned
      then some (num_unassigned - MAX_STUDENTS) else none
    let uidx' := if MAX_STUDENTS < num_unassigned
      then uidx.take MAX_STUDENTS else uidx
    let num' := if MAX_STUDENTS < num_unassigned
      then MAX_STUDENTS else num_unassigned
    let assignments := buildAssignments num'
    let shuffled := shuf assignments
    (applyWrites df (uidx'.zip shuffled), warn)

/-- Per-cell counts of a flat cell sequence, in topology order. -/
def cellCounts (l : List Cell) : List Nat :=
  all_groups.map (fun g => l.count g)

/-- Number of rows of the table currently placed in cell `c`
(the grouping used by the report renderer, lines 241-244). -/
def recordCellCount (df : List Student) (c : Cell) : Nat :=
  df.countP (fun r => r.primary_group == some c.1 && r.subgroup == some c.2)

/-- Lines 434-440: the row appended for a newly registered student, with both
group fields the empty string. -/
def newStudent (name index_number timestamp : String) : Student :=
  { name := name, index_number := index_number,
    primary_group := some "", subgroup := some "", timestamp := timestamp }

/-- Lines 441: `df = pd.concat([df, new_student], ignore_index=True)` —
the table mutation performed by a successful registration (lines 433-441). -/
def registerStudent (df : List Student) (name index_number timestamp : String) :
    List Student :=
  df ++ [newStudent name index_number timestamp]

/-- Lines 778-781: `df['primary_group'] = ''; df['subgroup'] = ''` —
the administrative clear of all assignments. -/
def clearAssignments (df : List Student) : List Student :=
  df.map (fun r => { r with primary_group := some "", subgroup := some "" })

/-- A group field counts as set when it is a non-NaN, non-empty string. -/
def fieldSet : Option String → Bool
  | none => false
  | some s => !(s == "")

/-- The data-model invariant: `primary_group` and `subgroup` are both set or
both unset. -/
def consistent (r : Student) : Bool :=
  fieldSet r.primary_group == fieldSet r.subgroup

/-- The invariant over a whole table. -/
def invariantAll (df : List Student) : Prop :=
  ∀ r ∈ df, consistent r = true

/-- An all-blank row as produced by registration: unassigned. -/
def blankStudent : Student :=
  { name := "", index_number := "", primary_group := some "",
    subgroup := some "", timestamp := "" }

/-- The per-cell amounts computed by the sizing loop, one `Nat` per remaining
cell (zero entries once the loop has broken).  `sizeLoop` is the flattening of
this list of amounts against the cell list; working at the `Nat` level keeps
finite checks cheap. -/
def sizeCounts : Nat → Nat → Nat → Nat → List Nat
  | 0, _, _, _ => []
  | m + 1, i, students_assigned, num_unassigned =>
    if num_unassigned ≤ students_assigned then List.replicate (m + 1) 0
    else
      let remaining_students := num_unassigned - students_assigned
      let remaining_groups := all_groups.length - i
      let base_per_group := remaining_students / remaining_groups
      let extra := if i < remaining_students % remaining_groups then 1 else 0
      let k := min (base_per_group + extra) STUDENTS_PER_SUBGROUP
      k :: sizeCounts m (i + 1) (students_assigned + k) num_unassigned

lemma sizeCounts_length : ∀ m i a num, (sizeCounts m i a num).length = m := by
  intro m
  induction m with
  | zero => intro i a num; rfl
  | succ m ih =>
    intro i a num
    rw [sizeCounts]
    split
    · simp
    · simp [ih]

lemma flatten_zipWith_replicate_zero :
    ∀ (gs : List Cell) (m : Nat),
      (List.zipWith List.replicate (List.replicate m 0) gs).flatten = [] := by
  intro gs
  induction gs with
  | nil => intro m; cases m <;> simp
  | cons g gs ih =>
    intro m
    cases m with
    | zero => simp
    | succ m =>
      simp only [List.replicate_succ, List.zipWith_cons_cons, List.flatten_cons,
        List.replicate_zero, List.nil_append]
      exact ih m

lemma sizeLoop_eq_flatten : ∀ (gs : List Cell) (i a num : Nat),
    sizeLoop gs i a num
      = (List.zipWith List.replicate (sizeCounts gs.length i a num) gs).flatten := by
  intro gs
  induction gs with
  | nil => intro i a num; rfl
  | cons g gs ih =>
    intro i a num
    rw [sizeLoop, List.length_cons, sizeCounts]
    split
    · rw [flatten_zipWith_replicate_zero]
    · simp only [List.zipWith_cons_cons, List.flatten_cons, ih]

lemma length_flatten_zipWith_replicate :
    ∀ (ks : List Nat) (gs : List Cell), ks.length ≤ gs.length →
      ((List.zipWith List.replicate ks gs).flatten).length = ks.sum := by
  intro ks
  induction ks with
  | nil => intro gs _; simp
  | cons k ks ih =>
    intro gs hlen
    cases gs with
    | nil => simp at hlen
    | cons g gs =>
      simp only [List.zipWith_cons_cons, List.flatten_cons, List.length_append,
        List.length_replicate, List.sum_cons]
      rw [ih gs (by simpa using hlen)]

lemma count_flatten_zipWith_replicate_notmem :
    ∀ (ks : List Nat) (gs : List Cell) (c : Cell), c ∉ gs →
      ((List.zipWith List.replicate ks gs).flatten).count c = 0 := by
  intro ks
  induction ks with
  | nil => intro gs c _; simp
  | cons k ks ih =>
    intro gs c hc
    cases gs with
    | nil => simp
    | cons g gs =>
      have hne : c ≠ g := fun h => hc (h ▸ List.mem_cons_self g gs)
      have hnm : c ∉ gs := fun h => hc (List.mem_cons_of_mem g h)
      simp only [List.zipWith_cons_cons, List.flatten_cons, List.count_append]
      rw [ih gs c hnm, List.count_replicate]
      simp [Ne.symm hne]

lemma map_count_flatten_zipWith_replicate :
    ∀ (ks : List Nat) (gs : List Cell), gs.Nodup → ks.length = gs.length →
      gs.map (fun g => ((List.zipWith List.replicate ks gs).flatten).count g) = ks := by
  intro ks
  induction ks with
  | nil =>
    intro gs _ hlen
    cases gs with
    | nil => rfl
    | cons g gs => simp at hlen
  | cons k ks ih =>
    intro gs hnd hlen
    cases gs with
    | nil => simp at hlen
    | cons g gs =>
      have hgnm : g ∉ gs := (List.nodup_cons.mp hnd).1
      have hnd' : gs.Nodup := (List.nodup_cons.mp hnd).2
      have hlen' : ks.length = gs.length := by simpa using hlen
      simp only [List.zipWith_cons_cons, List.flatten_cons, List.map_cons,
        List.cons.injEq]
      refine ⟨?_, ?_⟩
      · rw [List.count_append, List.count_replicate,
          count_flatten_zipWith_replicate_notmem ks gs g hgnm]
        simp
      · have hcong : ∀ x ∈ gs,
            ((List.replicate k g ++ (List.zipWith List.replicate ks gs).flatten).count x)
              = ((List.zipWith List.replicate ks gs).flatten).count x := by
          intro x hx
          have hne : x ≠ g := fun h => hgnm (h ▸ hx)
          rw [List.count_append, List.count_replicate]
          simp [Ne.symm hne]
        rw [List.map_congr_left hcong, ih gs hnd' hlen']

lemma all_groups_nodup : all_groups.Nodup := by decide

lemma all_groups_length : all_groups.length = 25 := rfl

lemma cellCounts_buildAssignments (n : Nat) :
    cellCounts (buildAssignments n) = sizeCounts 25 0 0 n := by
  unfold cellCounts buildAssignments
  rw [sizeLoop_eq_flatten, all_groups_length]
  exact map_count_flatten_zipWith_replicate _ _ all_groups_nodup
    (by rw [sizeCounts_length, all_groups_length])

lemma buildAssignments_length (n : Nat) :
    (buildAssignments n).length = (sizeCounts 25 0 0 n).sum := by
  unfold buildAssignments
  rw [sizeLoop_eq_flatten, all_groups_length]
  exact length_flatten_zipWith_replicate _ _
    (by rw [sizeCounts_length, all_groups_length])

/-- A copy of `sizeCounts` with the constants `all_groups.length` and
`STUDENTS_PER_SUBGROUP` replaced by their numeric values, so that finite
checks reduce over plain numerals. -/
def sizeCountsL : Nat → Nat → Nat → Nat → List Nat
  | 0, _, _, _ => []
  | m + 1, i, students_assigned, num_unassigned =>
    if num_unassigned ≤ students_assigned then List.replicate (m + 1) 0
    else
      let remaining_students := num_unassigned - students_assigned
      let remaining_groups := 25 - i
      let base_per_group := remaining_students / remaining_groups
      let extra := if i < remaining_students % remaining_groups then 1 else 0
      let k := min (base_per_group + extra) 8
      k :: sizeCountsL m (i + 1) (students_assigned + k) num_unassigned

lemma STUDENTS_PER_SUBGROUP_eq : STUDENTS_PER_SUBGROUP = 8 := rfl

lemma sizeCountsL_eq : ∀ m i a num, sizeCountsL m i a num = sizeCounts m i a num := by
  intro m
  induction m with
  | zero => intro i a num; rfl
  | succ m ih =>
    intro i a num
    rw [sizeCountsL, sizeCounts]
    simp only [all_groups_length, STUDENTS_PER_SUBGROUP_eq, ih]

/-- Decidable per-`n` check: the plan sizes sum to `n`, stay at most 8, and
differ pairwise by at most 1. -/
def planOk (n : Nat) : Bool :=
  ((sizeCountsL 25 0 0 n).sum == n)
    && (sizeCountsL 25 0 0 n).all (fun a => a ≤ 8)
    && (sizeCountsL 25 0 0 n).all (fun a =>
         (sizeCountsL 25 0 0 n).all (fun b => a ≤ b + 1))

set_option maxRecDepth 100000 in
set_option maxHeartbeats 8000000 in
lemma planOk_all : ((List.range 201).all planOk) = true := by decide

lemma sizeCounts_spec : ∀ n, n ≤ 200 →
    (sizeCounts 25 0 0 n).sum = n
    ∧ (∀ a ∈ sizeCounts 25 0 0 n, a ≤ 8)
    ∧ (∀ a ∈ sizeCounts 25 0 0 n, ∀ b ∈ sizeCounts 25 0 0 n, a ≤ b + 1) := by
  intro n hn
  have h : planOk n = true :=
    List.all_eq_true.mp planOk_all n (List.mem_range.mpr (by omega))
  simp only [planOk, Bool.and_eq_true, List.all_eq_true, decide_eq_true_eq,
    beq_iff_eq, sizeCountsL_eq] at h
  tauto

lemma sizeLoop_subset : ∀ (gs : List Cell) (i a num : Nat),
    sizeLoop gs i a num ⊆ gs := by
  intro gs
  induction gs with
  | nil => intro i a num c hc; simp [sizeLoop] at hc
  | cons g gs ih =>
    intro i a num c hc
    rw [sizeLoop] at hc
    split at hc
    · simp at hc
    · rcases List.mem_append.mp hc with h | h
      · rw [List.eq_of_mem_replicate h]
        exact List.mem_cons_self g gs
      · exact List.mem_cons_of_mem g (ih _ _ _ h)

lemma buildAssignments_subset (n : Nat) : buildAssignments n ⊆ all_groups :=
  sizeLoop_subset all_groups 0 0 n

lemma setGroups_setGroups (r : Student) (c c' : Cell) :
    setGroups (setGroups r c) c' = setGroups r c' := rfl

lemma modifyAt_get? (f : α → α) :
    ∀ (l : List α) (n m : Nat),
      (modifyAt f n l).get? m = if m = n then (l.get? n).map f else l.get? m := by
  intro l
  induction l with
  | nil => intro n m; simp [modifyAt]
  | cons a l ih =>
    intro n m
    cases n with
    | zero =>
      cases m with
      | zero => simp [modifyAt]
      | succ m => simp [modifyAt]
    | succ n =>
      cases m with
      | zero => simp [modifyAt]
      | succ m =>
        simp only [modifyAt, List.get?_cons_succ, ih n m,
          Nat.succ_eq_add_one, Nat.add_right_cancel_iff]

lemma applyWrites_nil (df : List Student) : applyWrites df [] = df := rfl

lemma applyWrites_cons (df : List Student) (p : Nat × Cell) (ps : List (Nat × Cell)) :
    applyWrites df (p :: ps)
      = applyWrites (modifyAt (fun r => setGroups r p.2) p.1 df) ps := rfl

lemma applyWrites_get?_notmem :
    ∀ (ps : List (Nat × Cell)) (df : List Student) (i : Nat),
      i ∉ ps.map Prod.fst → (applyWrites df ps).get? i = df.get? i := by
  intro ps
  induction ps with
  | nil => intro df i _; rfl
  | cons p ps ih =>
    intro df i hi
    rw [List.map_cons, List.mem_cons, not_or] at hi
    rw [applyWrites_cons, ih _ i hi.2, modifyAt_get?]
    simp [hi.1]

lemma applyWrites_get?_mem :
    ∀ (ps : List (Nat × Cell)) (df : List Student) (i : Nat),
      i ∈ ps.map Prod.fst →
      ∃ c ∈ ps.map Prod.snd,
        (applyWrites df ps).get? i = (df.get? i).map (fun r => setGroups r c) := by
  intro ps
  induction ps with
  | nil => intro df i hi; simp at hi
  | cons p ps ih =>
    intro df i hi
    by_cases hmem : i ∈ ps.map Prod.fst
    · obtain ⟨c, hc, heq⟩ := ih (modifyAt (fun r => setGroups r p.2) p.1 df) i hmem
      refine ⟨c, List.mem_cons_of_mem _ hc, ?_⟩
      rw [applyWrites_cons, heq, modifyAt_get?]
      by_cases h1 : i = p.1
      · rw [if_pos h1, h1]
        cases df.get? p.1 <;> simp [setGroups_setGroups]
      · rw [if_neg h1]
    · have h1 : i = p.1 := by
        rw [List.map_cons, List.mem_cons] at hi
        tauto
      refine ⟨p.2, List.mem_cons_self _ _, ?_⟩
      rw [applyWrites_cons, applyWrites_get?_notmem ps _ i hmem, modifyAt_get?]
      simp [h1]

lemma applyWrites_get?_cases (ps : List (Nat × Cell)) (df : List Student) (i : Nat) :
    (applyWrites df ps).get? i = df.get? i
    ∨ ∃ c ∈ ps.map Prod.snd,
        (applyWrites df ps).get? i = (df.get? i).map (fun r => setGroups r c) := by
  by_cases h : i ∈ ps.map Prod.fst
  · exact Or.inr (applyWrites_get?_mem ps df i h)
  · exact Or.inl (applyWrites_get?_notmem ps df i h)

lemma mem_unassignedIdx (df : List Student) (i : Nat) :
    i ∈ unassignedIdx df ↔ ∃ r, df.get? i = some r ∧ isUnassigned r = true := by
  unfold unassignedIdx
  rw [List.mem_filter, List.mem_range]
  constructor
  · rintro ⟨hlt, h⟩
    unfold unassignedAt at h
    cases hget : df.get? i with
    | none => rw [hget] at h; cases h
    | some r => rw [hget] at h; exact ⟨r, rfl, h⟩
  · rintro ⟨r, hget, hr⟩
    have hlt : i < df.length := by
      obtain ⟨h, _⟩ := List.get?_eq_some.mp hget
      exact h
    refine ⟨hlt, ?_⟩
    unfold unassignedAt
    rw [hget]
    exact hr

lemma MAX_STUDENTS_eq : MAX_STUDENTS = 200 := rfl

lemma assignGroups_zero (shuf : List Cell → List Cell) (df : List Student)
    (h : (unassignedIdx df).length = 0) :
    assignGroups shuf df = (df, none) := by
  unfold assignGroups
  rw [if_pos h]

lemma assignGroups_small (shuf : List Cell → List Cell) (df : List Student)
    (h0 : (unassignedIdx df).length ≠ 0)
    (h : ¬ MAX_STUDENTS < (unassignedIdx df).length) :
    assignGroups shuf df
      = (applyWrites df ((unassignedIdx df).zip
          (shuf (buildAssignments (unassignedIdx df).length))), none) := by
  unfold assignGroups
  simp only [if_neg h0, if_neg h]

lemma assignGroups_big (shuf : List Cell → List Cell) (df : List Student)
    (h : MAX_STUDENTS < (unassignedIdx df).length) :
    assignGroups shuf df
      = (applyWrites df (((unassignedIdx df).take MAX_STUDENTS).zip
          (shuf (buildAssignments MAX_STUDENTS))),
         some ((unassignedIdx df).length - MAX_STUDENTS)) := by
  unfold assignGroups
  have h0 : (unassignedIdx df).length ≠ 0 := by
    rw [MAX_STUDENTS_eq] at h
    omega
  simp only [if_neg h0, if_pos h]

lemma zip_fst_subset (a : List Nat) (b : List Cell) :
    (a.zip b).map Prod.fst ⊆ a := by
  intro x hx
  obtain ⟨p, hp, rfl⟩ := List.mem_map.mp hx
  exact (List.of_mem_zip hp).1

lemma zip_snd_subset (a : List Nat) (b : List Cell) :
    (a.zip b).map Prod.snd ⊆ b := by
  intro x hx
  obtain ⟨p, hp, rfl⟩ := List.mem_map.mp hx
  exact (List.of_mem_zip hp).2

lemma all_groups_good : ∀ c ∈ all_groups, c.1 ≠ "" ∧ c.2 ≠ "" := by decide

lemma not_mem_unassignedIdx (df : List Student) (i : Nat) (r : Student)
    (hget : df.get? i = some r) (hr : isUnassigned r = false) :
    i ∉ unassignedIdx df := by
  intro hmem
  obtain ⟨r', hget', hr'⟩ := (mem_unassignedIdx df i).mp hmem
  rw [hget] at hget'
  cases hget'
  rw [hr] at hr'
  cases hr'

lemma assignGroups_untouched (shuf : List Cell → List Cell) (df : List Student)
    (i : Nat) (r : Student) (hget : df.get? i = some r)
    (hr : isUnassigned r = false) :
    ((assignGroups shuf df).1).get? i = some r := by
  have hni : i ∉ unassignedIdx df := not_mem_unassignedIdx df i r hget hr
  by_cases h0 : (unassignedIdx df).length = 0
  · rw [assignGroups_zero shuf df h0]
    exact hget
  · by_cases h : MAX_STUDENTS < (unassignedIdx df).length
    · rw [assignGroups_big shuf df h]
      have hnm : i ∉ ((((unassignedIdx df).take MAX_STUDENTS).zip
          (shuf (buildAssignments MAX_STUDENTS))).map Prod.fst) := fun hx =>
        hni (List.take_subset _ _ (zip_fst_subset _ _ hx))
      rw [show (applyWrites df (((unassignedIdx df).take MAX_STUDENTS).zip
            (shuf (buildAssignments MAX_STUDENTS))),
          some ((unassignedIdx df).length - MAX_STUDENTS)).1
        = applyWrites df (((unassignedIdx df).take MAX_STUDENTS).zip
            (shuf (buildAssignments MAX_STUDENTS))) from rfl]
      rw [applyWrites_get?_notmem _ _ _ hnm]
      exact hget
    · rw [assignGroups_small shuf df h0 h]
      have hnm : i ∉ (((unassignedIdx df).zip
          (shuf (buildAssignments (unassignedIdx df).length))).map Prod.fst) := fun hx =>
        hni (zip_fst_subset _ _ hx)
      rw [show (applyWrites df ((unassignedIdx df).zip
            (shuf (buildAssignments (unassignedIdx df).length))), (none : Option Nat)).1
        = applyWrites df ((unassignedIdx df).zip
            (shuf (buildAssignments (unassignedIdx df).length))) from rfl]
      rw [applyWrites_get?_notmem _ _ _ hnm]
      exact hget

lemma assignGroups_get?_cases (shuf : List Cell → List Cell) (df : List Student)
    (i : Nat) :
    ((assignGroups shuf df).1).get? i = df.get? i
    ∨ ∃ c, ((assignGroups shuf df).1).get? i
        = (df.get? i).map (fun r => setGroups r c) := by
  by_cases h0 : (unassignedIdx df).length = 0
  · rw [assignGroups_zero shuf df h0]
    exact Or.inl rfl
  · by_cases h : MAX_STUDENTS < (unassignedIdx df).length
    · rw [assignGroups_big shuf df h]
      rcases applyWrites_get?_cases (((unassignedIdx df).take MAX_STUDENTS).zip
        (shuf (buildAssignments MAX_STUDENTS))) df i with hc | ⟨c, _, hc⟩
      · exact Or.inl hc
      · exact Or.inr ⟨c, hc⟩
    · rw [assignGroups_small shuf df h0 h]
      rcases applyWrites_get?_cases ((unassignedIdx df).zip
        (shuf (buildAssignments (unassignedIdx df).length))) df i with hc | ⟨c, _, hc⟩
      · exact Or.inl hc
      · exact Or.inr ⟨c, hc⟩

lemma assignGroups_get?_cases_mem (shuf : List Cell → List Cell) (df : List Student)
    (i : Nat) (hperm : ∀ l, (shuf l).Perm l) :
    ((assignGroups shuf df).1).get? i = df.get? i
    ∨ ∃ c ∈ all_groups, ((assignGroups shuf df).1).get? i
        = (df.get? i).map (fun r => setGroups r c) := by
  by_cases h0 : (unassignedIdx df).length = 0
  · rw [assignGroups_zero shuf df h0]
    exact Or.inl rfl
  · by_cases h : MAX_STUDENTS < (unassignedIdx df).length
    · rw [assignGroups_big shuf df h]
      rcases applyWrites_get?_cases (((unassignedIdx df).take MAX_STUDENTS).zip
        (shuf (buildAssignments MAX_STUDENTS))) df i with hc | ⟨c, hcm, hc⟩
      · exact Or.inl hc
      · refine Or.inr ⟨c, ?_, hc⟩
        exact buildAssignments_subset _
          ((hperm (buildAssignments MAX_STUDENTS)).mem_iff.mp (zip_snd_subset _ _ hcm))
    · rw [assignGroups_small shuf df h0 h]
      rcases applyWrites_get?_cases ((unassignedIdx df).zip
        (shuf (buildAssignments (unassignedIdx df).length))) df i with hc | ⟨c, hcm, hc⟩
      · exact Or.inl hc
      · refine Or.inr ⟨c, ?_, hc⟩
        exact buildAssignments_subset _
          ((hperm (buildAssignments (unassignedIdx df).length)).mem_iff.mp
            (zip_snd_subset _ _ hcm))

lemma buildAssignments_length_eq (n : Nat) (hn : n ≤ 200) :
    (buildAssignments n).length = n := by
  rw [buildAssignments_length]
  exact (sizeCounts_spec n hn).1

lemma unassignedIdx_eq_nil (df : List Student)
    (h : ∀ i r, df.get? i = some r → isUnassigned r = false) :
    unassignedIdx df = [] := by
  unfold unassignedIdx
  rw [List.filter_eq_nil_iff]
  intro i _
  unfold unassignedAt
  cases hget : df.get? i with
  | none => simp
  | some r => simp [h i r hget]

/-- A concrete record with exactly one group field set: `primary_group = "A"`,
`subgroup = ""` (the data-integrity scenario of the spec). -/
def corruptStudent : Student :=
  { name := "x", index_number := "STUBTECH000001", primary_group := some "A",
    subgroup := some "", timestamp := "t" }

/-- A concrete record that is already assigned to cell (A,1). -/
def assignedStudentA : Student :=
  { name := "n", index_number := "i", primary_group := some "A",
    subgroup := some "1", timestamp := "t" }

/-- A concrete record that is already assigned to cell (B,2). -/
def assignedStudentB : Student :=
  { name := "m", index_number := "j", primary_group := some "B",
    subgroup := some "2", timestamp := "u" }

/-- C1: for every n in [0, 200] with capacity_per_cell = 8, the flat assignment
sequence built by assign_groups before shuffling has length exactly n, the
per-cell counts over the 25 cells satisfy max - min <= 1, and no cell's count
exceeds 8. -/
theorem C1_plan_balanced (n : Nat) (hn : n ≤ 200) :
    (buildAssignments n).length = n
    ∧ (∀ a ∈ cellCounts (buildAssignments n), a ≤ 8)
    ∧ (∀ a ∈ cellCounts (buildAssignments n),
        ∀ b ∈ cellCounts (buildAssignments n), a ≤ b + 1) := by
  obtain ⟨h1, h2, h3⟩ := sizeCounts_spec n hn
  refine ⟨?_, ?_, ?_⟩
  · rw [buildAssignments_length]
    exact h1
  · rw [cellCounts_buildAssignments]
    exact h2
  · rw [cellCounts_buildAssignments]
    exact h3

theorem C1_plan_balanced_witness :
    (buildAssignments 27).length = 27
    ∧ (∀ a ∈ cellCounts (buildAssignments 27), a ≤ 8)
    ∧ (∀ a ∈ cellCounts (buildAssignments 27),
        ∀ b ∈ cellCounts (buildAssignments 27), a ≤ b + 1) :=
  C1_plan_balanced 27 (by decide)

/-- C3 counterexample: for n = 27 the claimed distribution — the first two
cells in topology order, (A,1) and (A,2), get 2 each and every other cell
gets 1 — is not what the sizing loop produces. -/
theorem C3_counterexample :
    cellCounts (buildAssignments 27) ≠ 2 :: 2 :: List.replicate 23 1 := by
  decide

/-- C3 amended: for n = 27 unassigned and capacity 8 the sizing loop gives 2
participants to the first cell (A,1) and 2 to the last cell (E,5), and exactly
1 to each of the 23 cells in between: the `extra` test compares the absolute
cell index with the recentred remainder, so after cell 0 it never fires and
the leftover unit lands on the final cell. -/
theorem C3_actual_distribution :
    cellCounts (buildAssignments 27) = 2 :: (List.replicate 23 1 ++ [2]) := by
  decide

/-- C8: per-cell counts of the shuffled plan do not depend on the random
source: any two permutation-respecting shuffles of the same plan have the same
per-cell counts over the 25 cells. -/
theorem C8_counts_seed_independent (n : Nat)
    (shuf₁ shuf₂ : List Cell → List Cell)
    (h₁ : ∀ l, (shuf₁ l).Perm l) (h₂ : ∀ l, (shuf₂ l).Perm l) :
    cellCounts (shuf₁ (buildAssignments n))
      = cellCounts (shuf₂ (buildAssignments n)) := by
  unfold cellCounts
  apply List.map_congr_left
  intro c _
  rw [List.count_eq_countP, List.count_eq_countP,
    (h₁ (buildAssignments n)).countP_eq, (h₂ (buildAssignments n)).countP_eq]

theorem C8_counts_seed_independent_witness :
    cellCounts (id (buildAssignments 27)) = cellCounts (id (buildAssignments 27)) :=
  C8_counts_seed_independent 27 id id (fun l => List.Perm.refl l)
    (fun l => List.Perm.refl l)

/-- C6: a record that is already assigned (both group fields set to non-empty
strings) before assign_groups is returned completely unchanged. -/
theorem C6_assigned_untouched (shuf : List Cell → List Cell) (df : List Student)
    (i : Nat) (r : Student) (p s : String)
    (hget : df.get? i = some r)
    (hp : r.primary_group = some p) (hp' : p ≠ "")
    (_hs : r.subgroup = some s) (_hs' : s ≠ "") :
    ((assignGroups shuf df).1).get? i = some r := by
  apply assignGroups_untouched shuf df i r hget
  simp [isUnassigned, hp, hp']

theorem C6_assigned_untouched_witness :
    ((assignGroups id [assignedStudentA]).1).get? 0 = some assignedStudentA :=
  C6_assigned_untouched id [assignedStudentA] 0 assignedStudentA "A" "1"
    rfl rfl (by decide) rfl (by decide)

/-- C2 counterexample: a record with primary_group = "A" and subgroup = "" is
not rejected: assign_groups classifies it as already assigned (it fails the
line-142 unassigned test) and returns the collection unchanged with no error
of any kind. -/
theorem C2_counterexample :
    isUnassigned corruptStudent = false
    ∧ assignGroups id [corruptStudent] = ([corruptStudent], none) := by
  constructor
  · decide
  · decide

/-- C2 amended: assign_groups has no CorruptRecord rejection: a record with
primary_group set to a non-empty string and subgroup empty is silently treated
as already assigned and left unchanged. -/
theorem C2_no_corrupt_rejection (shuf : List Cell → List Cell)
    (df : List Student) (i : Nat) (r : Student) (p : String)
    (hget : df.get? i = some r)
    (hp : r.primary_group = some p) (hp' : p ≠ "")
    (_hs : r.subgroup = some "") :
    ((assignGroups shuf df).1).get? i = some r := by
  apply assignGroups_untouched shuf df i r hget
  simp [isUnassigned, hp, hp']

theorem C2_no_corrupt_rejection_witness :
    ((assignGroups id [corruptStudent]).1).get? 0 = some corruptStudent :=
  C2_no_corrupt_rejection id [corruptStudent] 0 corruptStudent "A" rfl rfl
    (by decide) rfl

/-- C9 counterexample: a call that newly assigns three participants returns no
report at all — the only reporting channel (the overflow warning) is `none`
even though the record set changed. -/
theorem C9_counterexample :
    (assignGroups id (List.replicate 3 blankStudent)).2 = none
    ∧ (assignGroups id (List.replicate 3 blankStudent)).1
        ≠ List.replicate 3 blankStudent := by
  constructor
  · decide
  · decide

/-- C9 amended: assign_groups returns only the merged records plus an overflow
warning; the warning is `some (n - 200)` exactly when the unassigned count `n`
exceeds the 200-student capacity and `none` otherwise, and no report of
already_assigned / newly_assigned / left_unassigned counts is produced. -/
theorem C9_overflow_warning_only (shuf : List Cell → List Cell)
    (df : List Student) :
    (assignGroups shuf df).2
      = if MAX_STUDENTS < (unassignedIdx df).length
        then some ((unassignedIdx df).length - MAX_STUDENTS) else none := by
  by_cases h0 : (unassignedIdx df).length = 0
  · rw [assignGroups_zero shuf df h0, h0]
    rw [if_neg (by rw [MAX_STUDENTS_eq]; omega)]
  · by_cases h : MAX_STUDENTS < (unassignedIdx df).length
    · rw [assignGroups_big shuf df h, if_pos h]
    · rw [assignGroups_small shuf df h0 h, if_neg h]

/-- C10: assign_groups never changes the name, index_number or timestamp of
any record, and a record it did not select as unassigned is returned entirely
unchanged. -/
theorem C10_only_group_fields_written (shuf : List Cell → List Cell)
    (df : List Student) (i : Nat) :
    (((assignGroups shuf df).1).get? i).map Student.name
        = (df.get? i).map Student.name
    ∧ (((assignGroups shuf df).1).get? i).map Student.index_number
        = (df.get? i).map Student.index_number
    ∧ (((assignGroups shuf df).1).get? i).map Student.timestamp
        = (df.get? i).map Student.timestamp
    ∧ (∀ r, df.get? i = some r → isUnassigned r = false →
        ((assignGroups shuf df).1).get? i = some r) := by
  refine ⟨?_, ?_, ?_, fun r hget hr => assignGroups_untouched shuf df i r hget hr⟩
  all_goals
    rcases assignGroups_get?_cases shuf df i with hc | ⟨c, hc⟩
  · rw [hc]
  · rw [hc]
    cases df.get? i <;> simp [setGroups]
  · rw [hc]
  · rw [hc]
    cases df.get? i <;> simp [setGroups]
  · rw [hc]
  · rw [hc]
    cases df.get? i <;> simp [setGroups]

theorem C10_only_group_fields_written_witness :
    ((assignGroups id [assignedStudentB]).1).get? 0 = some assignedStudentB :=
  (C10_only_group_fields_written id [assignedStudentB] 0).2.2.2
    assignedStudentB rfl (by decide)

/-- C7: every mutating operation — registration of a new participant,
assign_groups (with a permutation-respecting shuffle), and the administrative
clear — preserves the invariant that primary_group and subgroup are either
both unset or both set. -/
theorem C7_invariant_preserved :
    (∀ df nm ix ts, invariantAll df → invariantAll (registerStudent df nm ix ts))
    ∧ (∀ (shuf : List Cell → List Cell) df, (∀ l, (shuf l).Perm l) →
        invariantAll df → invariantAll ((assignGroups shuf df).1))
    ∧ (∀ df, invariantAll (clearAssignments df)) := by
  refine ⟨?_, ?_, ?_⟩
  · intro df nm ix ts hinv r hr
    rcases List.mem_append.mp hr with h | h
    · exact hinv r h
    · rw [List.mem_singleton] at h
      rw [h]
      rfl
  · intro shuf df hperm hinv r hr
    obtain ⟨i, hi⟩ := List.mem_iff_get?.mp hr
    rcases assignGroups_get?_cases_mem shuf df i hperm with hc | ⟨c, hcm, hc⟩
    · rw [hc] at hi
      exact hinv r (List.get?_mem hi)
    · rw [hc] at hi
      cases hget : df.get? i with
      | none => rw [hget] at hi; cases hi
      | some r0 =>
        rw [hget] at hi
        simp only [Option.map_some'] at hi
        obtain ⟨h1, h2⟩ := all_groups_good c hcm
        rw [← Option.some.inj hi]
        simp [consistent, setGroups, fieldSet, h1, h2]
  · intro df r hr
    obtain ⟨r0, _, h⟩ := List.mem_map.mp hr
    rw [← h]
    rfl

theorem C7_invariant_preserved_witness :
    invariantAll (registerStudent [] "a" "STUBTECH000002" "ts")
    ∧ invariantAll ((assignGroups id [blankStudent]).1)
    ∧ invariantAll (clearAssignments [blankStudent]) :=
  ⟨C7_invariant_preserved.1 [] "a" "STUBTECH000002" "ts"
      (fun r hr => absurd hr (List.not_mem_nil r)),
   C7_invariant_preserved.2.1 id [blankStudent] (fun l => List.Perm.refl l)
      (by intro r hr; rw [List.mem_singleton.mp hr]; rfl),
   C7_invariant_preserved.2.2 [blankStudent]⟩

set_option maxRecDepth 100000 in
set_option maxHeartbeats 4000000 in
/-- C5 counterexample: with 201 registered and unassigned students, the first
assign_groups call places only 200 of them, so a second call with no new
registrations is not a no-op — it assigns the remaining student. -/
theorem C5_counterexample :
    (assignGroups id ((assignGroups id (List.replicate 201 blankStudent)).1)).1
      ≠ (assignGroups id (List.replicate 201 blankStudent)).1 := by
  decide

/-- C5 amended: when the unassigned count is at most the 200-student capacity,
a second assign_groups call right after a first one is a no-op: it returns the
record collection unchanged (and no warning), newly assigning nobody. -/
theorem C5_idempotent_within_capacity (shuf shuf2 : List Cell → List Cell)
    (df : List Student) (hperm : ∀ l, (shuf l).Perm l)
    (hcap : (unassignedIdx df).length ≤ 200) :
    assignGroups shuf2 ((assignGroups shuf df).1)
      = ((assignGroups shuf df).1, none) := by
  have hgood : ∀ i r, ((assignGroups shuf df).1).get? i = some r →
      isUnassigned r = false := by
    intro i r hi
    by_cases h0 : (unassignedIdx df).length = 0
    · rw [assignGroups_zero shuf df h0] at hi
      replace hi : df.get? i = some r := hi
      cases hb : isUnassigned r with
      | false => rfl
      | true =>
        exact absurd ((mem_unassignedIdx df i).mpr ⟨r, hi, hb⟩)
          (by rw [List.length_eq_zero.mp h0]; exact List.not_mem_nil i)
    · have hns : ¬ MAX_STUDENTS < (unassignedIdx df).length := by
        rw [MAX_STUDENTS_eq]
        omega
      rw [assignGroups_small shuf df h0 hns] at hi
      replace hi : (applyWrites df ((unassignedIdx df).zip
          (shuf (buildAssignments (unassignedIdx df).length)))).get? i = some r := hi
      by_cases hmem : i ∈ unassignedIdx df
      · have hlen : (unassignedIdx df).length
            ≤ (shuf (buildAssignments (unassignedIdx df).length)).length := by
          rw [(hperm _).length_eq, buildAssignments_length_eq _ hcap]
        have hfst := List.map_fst_zip (unassignedIdx df)
          (shuf (buildAssignments (unassignedIdx df).length)) hlen
        obtain ⟨c, hcm, hc⟩ :=
          applyWrites_get?_mem _ df i (by rw [hfst]; exact hmem)
        rw [hc] at hi
        cases hget : df.get? i with
        | none => rw [hget] at hi; cases hi
        | some r0 =>
          rw [hget] at hi
          simp only [Option.map_some'] at hi
          have hcg : c ∈ all_groups := buildAssignments_subset _
            ((hperm _).mem_iff.mp (zip_snd_subset _ _ hcm))
          obtain ⟨h1, _⟩ := all_groups_good c hcg
          rw [← Option.some.inj hi]
          simp [isUnassigned, setGroups, h1]
      · have hnm : i ∉ ((unassignedIdx df).zip
            (shuf (buildAssignments (unassignedIdx df).length))).map Prod.fst :=
          fun hx => hmem (zip_fst_subset _ _ hx)
        rw [applyWrites_get?_notmem _ _ _ hnm] at hi
        cases hb : isUnassigned r with
        | false => rfl
        | true => exact absurd ((mem_unassignedIdx df i).mpr ⟨r, hi, hb⟩) hmem
  exact assignGroups_zero shuf2 _ (by rw [unassignedIdx_eq_nil _ hgood]; rfl)

theorem C5_idempotent_within_capacity_witness :
    assignGroups id ((assignGroups id [blankStudent]).1)
      = ((assignGroups id [blankStudent]).1, none) :=
  C5_idempotent_within_capacity id id [blankStudent]
    (fun l => List.Perm.refl l) (by decide)

lemma assignGroups_big_fst (shuf : List Cell → List Cell) (df : List Student)
    (h : MAX_STUDENTS < (unassignedIdx df).length) :
    (assignGroups shuf df).1
      = applyWrites df (((unassignedIdx df).take MAX_STUDENTS).zip
          (shuf (buildAssignments MAX_STUDENTS))) := by
  rw [assignGroups_big shuf df h]

lemma assignGroups_big_snd (shuf : List Cell → List Cell) (df : List Student)
    (h : MAX_STUDENTS < (unassignedIdx df).length) :
    (assignGroups shuf df).2
      = some ((unassignedIdx df).length - MAX_STUDENTS) := by
  rw [assignGroups_big shuf df h]

set_option maxRecDepth 100000 in
set_option maxHeartbeats 4000000 in
/-- C4: when the unassigned count n exceeds 200, assign_groups warns with
overflow exactly n - 200, the plan used for the 200 kept participants fills
every cell to exactly 8, every row outside the first 200 unassigned rows (in
table order) is left unchanged, and each of the first 200 unassigned rows
receives some cell of the topology; concretely, applying it to 203 blank
records leaves every one of the 25 cells holding exactly 8 members. -/
theorem C4_overflow_truncates (shuf : List Cell → List Cell) (df : List Student)
    (hperm : ∀ l, (shuf l).Perm l)
    (hover : 200 < (unassignedIdx df).length) :
    ((assignGroups shuf df).2 = some ((unassignedIdx df).length - 200)
      ∧ cellCounts (buildAssignments 200) = List.replicate 25 8
      ∧ (∀ i, i ∉ (unassignedIdx df).take 200 →
          ((assignGroups shuf df).1).get? i = df.get? i)
      ∧ (∀ i ∈ (unassignedIdx df).take 200, ∃ c ∈ all_groups,
          ((assignGroups shuf df).1).get? i
            = (df.get? i).map (fun r => setGroups r c)))
    ∧ (∀ c ∈ all_groups,
        recordCellCount ((assignGroups id (List.replicate 203 blankStudent)).1) c
          = 8) := by
  have hM : MAX_STUDENTS < (unassignedIdx df).length := by
    rw [MAX_STUDENTS_eq]
    exact hover
  constructor
  swap
  · decide
  refine ⟨?_, ?_, ?_, ?_⟩
  · rw [assignGroups_big_snd shuf df hM, MAX_STUDENTS_eq]
  · rw [cellCounts_buildAssignments, ← sizeCountsL_eq]
    decide
  · intro i hni
    rw [assignGroups_big_fst shuf df hM]
    apply applyWrites_get?_notmem
    intro hx
    have hmem : i ∈ (unassignedIdx df).take MAX_STUDENTS :=
      zip_fst_subset _ _ hx
    rw [MAX_STUDENTS_eq] at hmem
    exact hni hmem
  · intro i hi
    rw [assignGroups_big_fst shuf df hM]
    have htake : ((unassignedIdx df).take MAX_STUDENTS).length = MAX_STUDENTS := by
      rw [List.length_take, MAX_STUDENTS_eq,
        Nat.min_eq_left (Nat.le_of_lt hover)]
    have hlen2 : (shuf (buildAssignments MAX_STUDENTS)).length = MAX_STUDENTS := by
      rw [(hperm _).length_eq,
        buildAssignments_length_eq MAX_STUDENTS (le_of_eq MAX_STUDENTS_eq)]
    have hfst := List.map_fst_zip ((unassignedIdx df).take MAX_STUDENTS)
      (shuf (buildAssignments MAX_STUDENTS)) (by rw [htake, hlen2])
    have hmem : i ∈ (((unassignedIdx df).take MAX_STUDENTS).zip
        (shuf (buildAssignments MAX_STUDENTS))).map Prod.fst := by
      rw [hfst, MAX_STUDENTS_eq]
      exact hi
    obtain ⟨c, hcm, hc⟩ := applyWrites_get?_mem _ df i hmem
    exact ⟨c, buildAssignments_subset _
      ((hperm _).mem_iff.mp (zip_snd_subset _ _ hcm)), hc⟩

set_option maxRecDepth 100000 in
set_option maxHeartbeats 4000000 in
theorem C4_overflow_truncates_witness :
    (assignGroups id (List.replicate 204 blankStudent)).2 = some 4 := by
  have h := (C4_overflow_truncates id (List.replicate 204 blankStudent)
    (fun l => List.Perm.refl l) (by decide)).1.1
  rw [h]
  have hlen : (unassignedIdx (List.replicate 204 blankStudent)).length = 204 := by
    decide
  rw [hlen]

end ClassAssignment
